import Mathlib

/-!
Shallow embedding of the Longhorn ObjectStore controller
(src/controller/object_store_controller_test.go: the file holds both the
test fixture and the controller implementation itself, from
NewObjectStoreController down to resourceAsInt64).

Modelling conventions:
  * Resource-store getters (ds.GetX) are modelled as an immutable snapshot
    record, DataStore, holding each lookup's result for the single
    ObjectStore under reconciliation (all dependent-resource names are
    deterministic functions of the store name, so one slot per kind
    suffices).  Lookup and create results are Except StoreErr values.
  * Store mutations (ds.CreateX / ds.UpdateX / RemoveFinalizer /
    UpdateObjectStoreStatus) are recorded as an ordered list of WriteOp
    values emitted by each function; the Go code issues the call and, in
    the write-then-ignore-result places, discards its return value.
  * go error values are modelled by StoreErr (store API errors, compared
    by datastore.ErrorIsNotFound / ErrorIsAlreadyExists) and RErr
    (reconcile-level errors: a store error or a health-check failure
    message).  errors.Wrap only decorates the message, so wrapping is
    modelled as the identity on the underlying error.
  * Kubernetes int32 counters are modelled as Int, string-typed enum
    fields (phases, robustness) as String, resource.Quantity as an Int
    byte count.
  * The handlers only ever assign to store.Status.State and
    store.Status.Endpoints, so each handler returns the new
    ObjectStoreStatus next to its error and write list.
-/

namespace LonghornOS

/-- States of an ObjectStore (longhorn.ObjectStoreState). The empty string of
an uninitialized status and the explicit "Unknown" constant both fall into the
reconcile switch's default branch, so they are merged into one `unknown`
constructor. -/
inductive ObjectStoreState
  | unknown
  | starting
  | running
  | stopping
  | stopped
  | error
  | terminating
  deriving DecidableEq

/-- ObjectStoreStatus: the controller-owned status, diffed by
reflect.DeepEqual over exactly these two fields. -/
structure ObjectStoreStatus where
  state : ObjectStoreState
  endpoints : List String
  deriving DecidableEq

/-- One declared public endpoint of the ObjectStore spec
(endpoint.Name, endpoint.DomainName, endpoint.TLS.Name; an empty TLS
secret name means no TLS). -/
structure EndpointSpec where
  name : String
  domainName : String
  tlsName : String
  deriving DecidableEq

/-- ObjectStoreSpec (desired state).  Volume tuning parameters other than
the replica count are carried the same way by createVolume and are omitted. -/
structure ObjectStoreSpec where
  size : Int
  image : String
  uiImage : String
  credentialsName : String
  targetState : ObjectStoreState
  endpoints : List EndpointSpec
  numberOfReplicas : Int
  deriving DecidableEq

/-- The managed ObjectStore object: identity, deletion marker, finalizer
list, spec and status. -/
structure ObjectStore where
  name : String
  deletionTimestampSet : Bool
  finalizers : List String
  spec : ObjectStoreSpec
  status : ObjectStoreStatus
  deriving DecidableEq

/-- PersistentVolumeClaim, trimmed to the fields the controller reads or
builds. phase is pvc.Status.Phase ("Bound" = corev1.ClaimBound). -/
structure PVC where
  name : String
  accessModes : List String
  requestedStorage : Int
  storageClassName : Option String
  volumeName : String
  phase : String
  deriving DecidableEq

/-- Longhorn Volume. robustness is vol.Status.Robustness ("faulted" =
longhorn.VolumeRobustnessFaulted), ownerID is vol.Status.OwnerID. -/
structure Volume where
  name : String
  size : Int
  numberOfReplicas : Int
  robustness : String
  ownerID : String
  deriving DecidableEq

/-- PersistentVolume. phase is pv.Status.Phase ("Bound" =
corev1.VolumeBound). -/
structure PV where
  name : String
  capacity : Int
  reclaimPolicy : String
  fsType : String
  claimRefName : String
  phase : String
  deriving DecidableEq

/-- One container of the deployment pod template (name and image). -/
structure Container where
  name : String
  image : String
  deriving DecidableEq

/-- Deployment, trimmed to the fields the controller reads or builds.
specReplicas is the *int32 pointer dpl.Spec.Replicas. -/
structure Deployment where
  name : String
  specReplicas : Option Int
  strategy : String
  containers : List Container
  statusReplicas : Int
  availableReplicas : Int
  unavailableReplicas : Int
  deriving DecidableEq

/-- One service port mapping. -/
structure ServicePort where
  name : String
  port : Int
  targetPort : Int
  deriving DecidableEq

/-- Service, trimmed to name and port list. -/
structure Service where
  name : String
  ports : List ServicePort
  deriving DecidableEq

/-- One HTTP path of an ingress rule, with its service backend
(service name and service port name). -/
structure IngressPath where
  path : String
  backendServiceName : String
  backendPortName : String
  deriving DecidableEq

/-- One ingress rule: host plus its HTTP paths. -/
structure IngressRule where
  host : String
  paths : List IngressPath
  deriving DecidableEq

/-- One ingress TLS block. -/
structure IngressTLS where
  secretName : String
  hosts : List String
  deriving DecidableEq

/-- Ingress, trimmed to name, rules and TLS blocks. -/
structure Ingress where
  name : String
  rules : List IngressRule
  tls : List IngressTLS
  deriving DecidableEq

/-- Store API errors.  datastore.ErrorIsNotFound recognises notFound,
datastore.ErrorIsAlreadyExists recognises alreadyExists; every other
error is opaque (other). -/
inductive StoreErr
  | notFound
  | alreadyExists
  | conflict
  | other (code : Nat)
  deriving DecidableEq

/-- Reconcile-level error: a store API error, or a health-check failure
carrying its message (errors.New in the check functions). -/
inductive RErr
  | store (e : StoreErr)
  | check (msg : String)
  deriving DecidableEq

/-- One write issued against the authoritative store. -/
inductive WriteOp
  | createPVC (p : PVC)
  | createVolume (v : Volume)
  | createPV (p : PV)
  | createDeployment (d : Deployment)
  | createService (s : Service)
  | createIngress (i : Ingress)
  | updateDeployment (d : Deployment)
  | updateObjectStoreStatus (st : ObjectStoreStatus)
  | removeFinalizer
  deriving DecidableEq

/-- Snapshot of the resource store, as observed through the datastore
during one reconcile pass: the result each getter returns, and the result
each create/update/remove call would report.  getVolume serves both
ds.GetVolume and ds.GetVolumeRO of genPVName(store); getSecret only
records whether the credentials secret exists; getSetting is the registry
secret setting value. -/
structure DataStore where
  getObjectStore : Except StoreErr ObjectStore
  getPVC : Except StoreErr PVC
  getVolume : Except StoreErr Volume
  getPV : Except StoreErr PV
  getDeployment : Except StoreErr Deployment
  getService : Except StoreErr Service
  getIngress : String → Except StoreErr Ingress
  getSecret : Except StoreErr Unit
  getSetting : Except StoreErr String
  createPVCResult : Except StoreErr Unit
  createVolumeResult : Except StoreErr Unit
  createPVResult : Except StoreErr Unit
  createDeploymentResult : Except StoreErr Unit
  createServiceResult : Except StoreErr Unit
  createIngressResult : String → Except StoreErr Unit
  updateDeploymentResult : Except StoreErr Unit
  removeFinalizerResult : Except StoreErr Unit

/-- The controller instance fields used by the handlers
(osc.controllerID, osc.namespace, osc.s3gwImage, osc.uiImage). -/
structure ObjectStoreController where
  controllerID : String
  nspace : String
  s3gwImage : String
  uiImage : String

/-- Modelled from the spec: constant from the types package (not under
src/): the name of the main workload container; its exact value is
immaterial, it is used consistently by the builder and the checker. -/
def objectStoreContainerName : String := "s3gw"

/-- Modelled from the spec: constant from the types package (not under
src/): the name of the UI container. -/
def objectStoreUIContainerName : String := "s3gw-ui"

/-- Modelled from the spec: constant from the types package (not under
src/): the storage class name written into the claim and volume handle. -/
def objectStoreStorageClassName : String := "longhorn-objectstore"

/-- genPVName from the source. -/
def genPVName (store : ObjectStore) : String := "pv-" ++ store.name

/-- genPVCName from the source. -/
def genPVCName (store : ObjectStore) : String := "pvc-" ++ store.name

/-- genVolumeMountName from the source. -/
def genVolumeMountName (store : ObjectStore) : String := store.name ++ "-data"

/-! Builders: the pure spec-to-desired-resource part of each createX
function of the source. -/

/-- Claim built by createPVC: read-write-once access, requested capacity
equal to the spec size, the fixed object-store storage class, bound by
name to the (possibly not yet existing) PV. -/
def buildPVC (store : ObjectStore) : PVC :=
  { name := genPVCName store
    accessModes := ["ReadWriteOnce"]
    requestedStorage := store.spec.size
    storageClassName := some objectStoreStorageClassName
    volumeName := genPVName store
    phase := "" }

/-- Longhorn volume built by createVolume: size and tuning parameters
copied from the spec; status fields empty on creation. -/
def buildVolume (store : ObjectStore) : Volume :=
  { name := genPVName store
    size := store.spec.size
    numberOfReplicas := store.spec.numberOfReplicas
    robustness := ""
    ownerID := "" }

/-- PV built by createPV: capacity mirrors the spec size, reclaim policy
Retain, xfs filesystem (reflink support), claimRef to the claim name. -/
def buildPV (store : ObjectStore) : PV :=
  { name := genPVName store
    capacity := store.spec.size
    reclaimPolicy := "Retain"
    fsType := "xfs"
    claimRefName := genPVCName store
    phase := "" }

/-- Deployment built by createDeployment: exactly one replica, Recreate
strategy, the two containers with the spec's images. -/
def buildDeployment (store : ObjectStore) : Deployment :=
  { name := store.name
    specReplicas := some 1
    strategy := "Recreate"
    containers :=
      [ { name := objectStoreContainerName, image := store.spec.image }
      , { name := objectStoreUIContainerName, image := store.spec.uiImage } ]
    statusReplicas := 0
    availableReplicas := 0
    unavailableReplicas := 0 }

/-- Service built by createService: the fixed three-port mapping
(s3 80, ui 8080, status 9090; target ports from the types package). -/
def buildService (store : ObjectStore) : Service :=
  { name := store.name
    ports :=
      [ { name := "s3", port := 80, targetPort := 7480 }
      , { name := "ui", port := 8080, targetPort := 8080 }
      , { name := "status", port := 9090, targetPort := 9090 } ] }

/-- Ingress built inside getOrCreateS3Endpoints for one endpoint: an
exact-host rule and a wildcard-host rule, each with one "/" path to the
service's s3 port, and a TLS block exactly when the endpoint's TLS secret
name is nonempty. -/
def buildIngress (storeName : String) (ep : EndpointSpec) : Ingress :=
  { name := storeName ++ "-" ++ ep.name
    rules :=
      [ { host := ep.domainName
          paths := [{ path := "/", backendServiceName := storeName, backendPortName := "s3" }] }
      , { host := "*." ++ ep.domainName
          paths := [{ path := "/", backendServiceName := storeName, backendPortName := "s3" }] } ]
    tls :=
      if ep.tlsName ≠ "" then
        [{ secretName := ep.tlsName, hosts := [ep.domainName, "*." ++ ep.domainName] }]
      else [] }

/-! The createX operations: build the resource and issue the create call;
the call's own result decides between returning the created resource and
returning the error.  Each returns the issued write next to the result. -/

/-- createPVC from the source. -/
def ObjectStoreController.createPVC (_osc : ObjectStoreController) (ds : DataStore)
    (store : ObjectStore) : Except StoreErr PVC × List WriteOp :=
  let p := buildPVC store
  match ds.createPVCResult with
  | .ok _ => (.ok p, [.createPVC p])
  | .error e => (.error e, [.createPVC p])

/-- createVolume from the source (the pvc argument only contributes the
owner reference, which is not part of the trimmed Volume record). -/
def ObjectStoreController.createVolume (_osc : ObjectStoreController) (ds : DataStore)
    (store : ObjectStore) (_pvc : PVC) : Except StoreErr Volume × List WriteOp :=
  let v := buildVolume store
  match ds.createVolumeResult with
  | .ok _ => (.ok v, [.createVolume v])
  | .error e => (.error e, [.createVolume v])

/-- createPV from the source (the volume argument supplies the CSI volume
handle, equal to genPVName). -/
def ObjectStoreController.createPV (_osc : ObjectStoreController) (ds : DataStore)
    (store : ObjectStore) (_vol : Volume) : Except StoreErr PV × List WriteOp :=
  let p := buildPV store
  match ds.createPVResult with
  | .ok _ => (.ok p, [.createPV p])
  | .error e => (.error e, [.createPV p])

/-- createDeployment from the source: reads the credentials secret (a
non-not-found error aborts; not-found just leaves the env empty), reads
the registry secret setting (any error aborts), then issues the create. -/
def ObjectStoreController.createDeployment (_osc : ObjectStoreController) (ds : DataStore)
    (store : ObjectStore) : Except StoreErr Deployment × List WriteOp :=
  match ds.getSecret with
  | .error e =>
    if e ≠ .notFound then (.error e, [])
    else
      match ds.getSetting with
      | .error e2 => (.error e2, [])
      | .ok _ =>
        let d := buildDeployment store
        match ds.createDeploymentResult with
        | .ok _ => (.ok d, [.createDeployment d])
        | .error e2 => (.error e2, [.createDeployment d])
  | .ok _ =>
    match ds.getSetting with
    | .error e2 => (.error e2, [])
    | .ok _ =>
      let d := buildDeployment store
      match ds.createDeploymentResult with
      | .ok _ => (.ok d, [.createDeployment d])
      | .error e2 => (.error e2, [.createDeployment d])

/-- createService from the source. -/
def ObjectStoreController.createService (_osc : ObjectStoreController) (ds : DataStore)
    (store : ObjectStore) : Except StoreErr Service × List WriteOp :=
  let s := buildService store
  match ds.createServiceResult with
  | .ok _ => (.ok s, [.createService s])
  | .error e => (.error e, [.createService s])

/-- Result of one getOrCreateX operation: the looked-up or created
resource (or the propagated error), the possibly nudged status, and the
writes issued on the way. -/
structure GetOrCreateOut (α : Type) where
  res : Except StoreErr α
  status : ObjectStoreStatus
  writes : List WriteOp

/-- Status nudge shared by every getOrCreateX: after a successful create,
the state is set to Starting unless it already is Starting. -/
def nudgeStarting (st : ObjectStoreStatus) : ObjectStoreStatus :=
  if st.state ≠ ObjectStoreState.starting then { st with state := .starting } else st

/-- getOrCreatePVC from the source. -/
def ObjectStoreController.getOrCreatePVC (osc : ObjectStoreController) (ds : DataStore)
    (store : ObjectStore) : GetOrCreateOut PVC :=
  match ds.getPVC with
  | .ok pvc => ⟨.ok pvc, store.status, []⟩
  | .error e =>
    if e = .notFound then
      match osc.createPVC ds store with
      | (.ok pvc, ops) => ⟨.ok pvc, nudgeStarting store.status, ops⟩
      | (.error ce, ops) => ⟨.error ce, store.status, ops⟩
    else ⟨.error e, store.status, []⟩

/-- getOrCreateVolume from the source. -/
def ObjectStoreController.getOrCreateVolume (osc : ObjectStoreController) (ds : DataStore)
    (store : ObjectStore) (pvc : PVC) : GetOrCreateOut Volume :=
  match ds.getVolume with
  | .ok vol => ⟨.ok vol, store.status, []⟩
  | .error e =>
    if e = .notFound then
      match osc.createVolume ds store pvc with
      | (.ok vol, ops) => ⟨.ok vol, nudgeStarting store.status, ops⟩
      | (.error ce, ops) => ⟨.error ce, store.status, ops⟩
    else ⟨.error e, store.status, []⟩

/-- getOrCreatePV from the source. -/
def ObjectStoreController.getOrCreatePV (osc : ObjectStoreController) (ds : DataStore)
    (store : ObjectStore) (vol : Volume) : GetOrCreateOut PV :=
  match ds.getPV with
  | .ok pv => ⟨.ok pv, store.status, []⟩
  | .error e =>
    if e = .notFound then
      match osc.createPV ds store vol with
      | (.ok pv, ops) => ⟨.ok pv, nudgeStarting store.status, ops⟩
      | (.error ce, ops) => ⟨.error ce, store.status, ops⟩
    else ⟨.error e, store.status, []⟩

/-- getOrCreateDeployment from the source. -/
def ObjectStoreController.getOrCreateDeployment (osc : ObjectStoreController) (ds : DataStore)
    (store : ObjectStore) : GetOrCreateOut Deployment :=
  match ds.getDeployment with
  | .ok dpl => ⟨.ok dpl, store.status, []⟩
  | .error e =>
    if e = .notFound then
      match osc.createDeployment ds store with
      | (.ok dpl, ops) => ⟨.ok dpl, nudgeStarting store.status, ops⟩
      | (.error ce, ops) => ⟨.error ce, store.status, ops⟩
    else ⟨.error e, store.status, []⟩

/-- getOrCreateService from the source. -/
def ObjectStoreController.getOrCreateService (osc : ObjectStoreController) (ds : DataStore)
    (store : ObjectStore) : GetOrCreateOut Service :=
  match ds.getService with
  | .ok svc => ⟨.ok svc, store.status, []⟩
  | .error e =>
    if e = .notFound then
      match osc.createService ds store with
      | (.ok svc, ops) => ⟨.ok svc, nudgeStarting store.status, ops⟩
      | (.error ce, ops) => ⟨.error ce, store.status, ops⟩
    else ⟨.error e, store.status, []⟩

/-! Health checks. checkPVC, checkVolume and checkPV are pure predicates
returning the error message or none; checkDeployment additionally issues
writes and nudges the status (see ObjectStoreController.checkDeployment). -/

/-- checkPVC from the source: the claim must be in phase Bound. -/
def checkPVC (pvc : PVC) : Option String :=
  if pvc.phase ≠ "Bound" then some ("PVC " ++ pvc.name ++ " not bound") else none

/-- checkVolume from the source: the volume must not be faulted. -/
def checkVolume (vol : Volume) : Option String :=
  if vol.robustness = "faulted" then some ("volume " ++ vol.name ++ " has failed") else none

/-- checkPV from the source: the PV must be in phase Bound. -/
def checkPV (pv : PV) : Option String :=
  if pv.phase ≠ "Bound" then some ("PV " ++ pv.name ++ " not bound") else none

/-- Modelled from the spec: util.GetImageOfDeploymentContainerWithName
(util package, not under src/): the image of the container with the given
name, or the empty string if absent. -/
def getImageOfDeploymentContainerWithName (dpl : Deployment) (cname : String) : String :=
  match dpl.containers.find? (fun c => c.name == cname) with
  | some c => c.image
  | none => ""

/-- Modelled from the spec: util.SetImageOfDeploymentContainerWithName
(util package, not under src/): rewrite the image of the container with
the given name, an error if no such container exists. -/
def setImageOfDeploymentContainerWithName (dpl : Deployment) (cname img : String) :
    Except String Deployment :=
  if dpl.containers.any (fun c => c.name == cname) then
    .ok { dpl with
          containers := dpl.containers.map
            (fun c => if c.name == cname then { c with image := img } else c) }
  else .error ("container " ++ cname ++ " not found")

/-- One image reconciliation step of checkDeployment: when the observed
image of the named container differs from the desired one, set it, issue
an updateDeployment write (its result is ignored) and reset the state to
Starting; a failure of the setter is surfaced as the step's error. -/
def imageStep (dpl : Deployment) (st : ObjectStoreStatus) (cname img : String) :
    Except String (Deployment × ObjectStoreStatus × List WriteOp) :=
  if getImageOfDeploymentContainerWithName dpl cname ≠ img then
    match setImageOfDeploymentContainerWithName dpl cname img with
    | .error m => .error m
    | .ok d => .ok (d, { st with state := .starting }, [.updateDeployment d])
  else .ok (dpl, st, [])

/-- Result of checkDeployment: its error, the (possibly mutated)
deployment and status, and the writes it issued. -/
structure CheckDeploymentOut where
  err : Option RErr
  dpl : Deployment
  status : ObjectStoreStatus
  writes : List WriteOp
  deriving DecidableEq

/-- checkDeployment from the source: scale back to 1 replica when the
desired replica count differs from 1 (reporting "deployment just
scaled"); report "deployment not ready" when no replica is observed or
some replica is unavailable; otherwise reconcile both container images
against the spec.  Every updateDeployment issued here has its result
ignored (the DataStore's updateDeploymentResult is never consulted). -/
def ObjectStoreController.checkDeployment (_osc : ObjectStoreController) (_ds : DataStore)
    (dpl : Deployment) (store : ObjectStore) : CheckDeploymentOut :=
  if dpl.specReplicas ≠ some 1 then
    let d := { dpl with specReplicas := some 1 }
    ⟨some (.check "deployment just scaled"), d, store.status, [.updateDeployment d]⟩
  else if dpl.statusReplicas = 0 ∨ dpl.unavailableReplicas > 0 then
    ⟨some (.check "deployment not ready"), dpl, store.status, []⟩
  else
    match imageStep dpl store.status objectStoreContainerName store.spec.image with
    | .error m => ⟨some (.check m), dpl, store.status, []⟩
    | .ok (d1, st1, ops1) =>
      match imageStep d1 st1 objectStoreUIContainerName store.spec.uiImage with
      | .error m => ⟨some (.check m), d1, st1, ops1⟩
      | .ok (d2, st2, ops2) => ⟨none, d2, st2, ops1 ++ ops2⟩

/-- Loop body of getOrCreateS3Endpoints: walk the declared endpoints in
order; an existing ingress is collected as is; a missing one is built and
created (an alreadyExists outcome of the create is treated like success,
any other create failure sets the state to Error and aborts); a create
that counts as success appends the endpoint's domain name to the status
endpoint list; any other lookup error aborts unchanged. -/
def s3EndpointsGo (osc : ObjectStoreController) (ds : DataStore) (storeName : String) :
    List EndpointSpec → ObjectStoreStatus → List Ingress →
    Except StoreErr (List Ingress) × ObjectStoreStatus × List WriteOp
  | [], st, acc => (.ok acc, st, [])
  | ep :: rest, st, acc =>
    let iname := storeName ++ "-" ++ ep.name
    match ds.getIngress iname with
    | .ok ing => s3EndpointsGo osc ds storeName rest st (acc ++ [ing])
    | .error e =>
      if e = .notFound then
        let ing := buildIngress storeName ep
        match ds.createIngressResult iname with
        | .error ce =>
          if ce ≠ .alreadyExists then
            (.error ce, { st with state := .error }, [.createIngress ing])
          else
            let next := s3EndpointsGo osc ds storeName rest
              { st with endpoints := st.endpoints ++ [ep.domainName] } (acc ++ [ing])
            (next.1, next.2.1, .createIngress ing :: next.2.2)
        | .ok _ =>
          let next := s3EndpointsGo osc ds storeName rest
            { st with endpoints := st.endpoints ++ [ep.domainName] } (acc ++ [ing])
          (next.1, next.2.1, .createIngress ing :: next.2.2)
      else (.error e, st, [])

/-- getOrCreateS3Endpoints from the source. -/
def ObjectStoreController.getOrCreateS3Endpoints (osc : ObjectStoreController) (ds : DataStore)
    (store : ObjectStore) : GetOrCreateOut (List Ingress) :=
  let r := s3EndpointsGo osc ds store.name store.spec.endpoints store.status []
  ⟨r.1, r.2.1, r.2.2⟩

/-- Result of one state handler: its error, the new status and the writes
it issued (the handlers of the source only ever mutate store.Status). -/
structure HandlerOut where
  err : Option RErr
  status : ObjectStoreStatus
  writes : List WriteOp
  deriving DecidableEq

/-- handleStarting from the source (also the handler of the Error state):
get-or-create the claim, volume, PV, deployment, service and ingresses in
dependency order, aborting on any API error; add the implicit
cluster-internal endpoint when the endpoint list is still empty; then run
the health checks, returning success without transition when one of them
is not yet satisfied, and transition to Running when all pass. -/
def ObjectStoreController.handleStarting (osc : ObjectStoreController) (ds : DataStore)
    (store : ObjectStore) : HandlerOut :=
  let o1 := osc.getOrCreatePVC ds store
  match o1.res with
  | .error e => ⟨some (.store e), o1.status, o1.writes⟩
  | .ok pvc =>
    let s1 : ObjectStore := { store with status := o1.status }
    let o2 := osc.getOrCreateVolume ds s1 pvc
    match o2.res with
    | .error e => ⟨some (.store e), o2.status, o1.writes ++ o2.writes⟩
    | .ok vol =>
      let s2 : ObjectStore := { s1 with status := o2.status }
      let o3 := osc.getOrCreatePV ds s2 vol
      match o3.res with
      | .error e => ⟨some (.store e), o3.status, o1.writes ++ o2.writes ++ o3.writes⟩
      | .ok pv =>
        let s3 : ObjectStore := { s2 with status := o3.status }
        let o4 := osc.getOrCreateDeployment ds s3
        match o4.res with
        | .error e =>
          ⟨some (.store e), o4.status, o1.writes ++ o2.writes ++ o3.writes ++ o4.writes⟩
        | .ok dpl =>
          let s4 : ObjectStore := { s3 with status := o4.status }
          let o5 := osc.getOrCreateService ds s4
          match o5.res with
          | .error e =>
            ⟨some (.store e), o5.status,
              o1.writes ++ o2.writes ++ o3.writes ++ o4.writes ++ o5.writes⟩
          | .ok _svc =>
            let s5 : ObjectStore := { s4 with status := o5.status }
            let o6 := osc.getOrCreateS3Endpoints ds s5
            match o6.res with
            | .error e =>
              ⟨some (.store e), o6.status,
                o1.writes ++ o2.writes ++ o3.writes ++ o4.writes ++ o5.writes ++ o6.writes⟩
            | .ok _ingresses =>
              let st6 :=
                if o6.status.endpoints = [] then
                  { o6.status with endpoints := [store.name ++ "." ++ osc.nspace ++ ".svc"] }
                else o6.status
              let opsAll :=
                o1.writes ++ o2.writes ++ o3.writes ++ o4.writes ++ o5.writes ++ o6.writes
              match checkPVC pvc with
              | some _ => ⟨none, st6, opsAll⟩
              | none =>
                match checkVolume vol with
                | some _ => ⟨none, st6, opsAll⟩
                | none =>
                  match checkPV pv with
                  | some _ => ⟨none, st6, opsAll⟩
                  | none =>
                    let c := osc.checkDeployment ds dpl { store with status := st6 }
                    match c.err with
                    | some _ => ⟨none, c.status, opsAll ++ c.writes⟩
                    | none => ⟨none, { c.status with state := .running }, opsAll ++ c.writes⟩

/-- handleRunning from the source: a Stopped target state transitions to
Stopping; otherwise every dependent resource is looked up and checked in
order (deployment, service, claim, volume, PV) and the first failure sets
the state to Error and surfaces the error. -/
def ObjectStoreController.handleRunning (osc : ObjectStoreController) (ds : DataStore)
    (store : ObjectStore) : HandlerOut :=
  if store.spec.targetState = .stopped then
    ⟨none, { store.status with state := .stopping }, []⟩
  else
    match ds.getDeployment with
    | .error e => ⟨some (.store e), { store.status with state := .error }, []⟩
    | .ok dpl =>
      let c := osc.checkDeployment ds dpl store
      match c.err with
      | some ce => ⟨some ce, { c.status with state := .error }, c.writes⟩
      | none =>
        match ds.getService with
        | .error e => ⟨some (.store e), { c.status with state := .error }, c.writes⟩
        | .ok _ =>
          match ds.getPVC with
          | .error e => ⟨some (.store e), { c.status with state := .error }, c.writes⟩
          | .ok pvc =>
            match checkPVC pvc with
            | some m => ⟨some (.check m), { c.status with state := .error }, c.writes⟩
            | none =>
              match ds.getVolume with
              | .error e => ⟨some (.store e), { c.status with state := .error }, c.writes⟩
              | .ok vol =>
                match checkVolume vol with
                | some m => ⟨some (.check m), { c.status with state := .error }, c.writes⟩
                | none =>
                  match ds.getPV with
                  | .error e => ⟨some (.store e), { c.status with state := .error }, c.writes⟩
                  | .ok pv =>
                    match checkPV pv with
                    | some m => ⟨some (.check m), { c.status with state := .error }, c.writes⟩
                    | none => ⟨none, c.status, c.writes⟩

/-- handleStopping from the source: a failed deployment lookup sets Error
and surfaces the error; a non-nil nonzero desired replica count is scaled
to 0 (the update's error is the handler's result); remaining available
replicas mean wait; otherwise transition to Stopped. -/
def ObjectStoreController.handleStopping (_osc : ObjectStoreController) (ds : DataStore)
    (store : ObjectStore) : HandlerOut :=
  match ds.getDeployment with
  | .error e => ⟨some (.store e), { store.status with state := .error }, []⟩
  | .ok dpl =>
    match dpl.specReplicas with
    | some r =>
      if r ≠ 0 then
        let d := { dpl with specReplicas := some 0 }
        match ds.updateDeploymentResult with
        | .ok _ => ⟨none, store.status, [.updateDeployment d]⟩
        | .error e => ⟨some (.store e), store.status, [.updateDeployment d]⟩
      else if dpl.availableReplicas > 0 then ⟨none, store.status, []⟩
      else ⟨none, { store.status with state := .stopped }, []⟩
    | none =>
      if dpl.availableReplicas > 0 then ⟨none, store.status, []⟩
      else ⟨none, { store.status with state := .stopped }, []⟩

/-- handleStopped from the source: a Running target state transitions
back to Starting, otherwise nothing happens. -/
def ObjectStoreController.handleStopped (_osc : ObjectStoreController) (_ds : DataStore)
    (store : ObjectStore) : HandlerOut :=
  if store.spec.targetState = .running then
    ⟨none, { store.status with state := .starting }, []⟩
  else ⟨none, store.status, []⟩

/-- handleTerminating from the source: a nonempty finalizer list is
cleared first (one-shot, via RemoveFinalizerForObjectStore); afterwards
the dependents are looked up in order (service, deployment, claim, PV,
volume) and the pass returns the lookup's error unchanged, which is nil
(success) when the dependent still exists and the error itself when the
lookup failed with anything but not-found; only a not-found moves on to
the next dependent. -/
def ObjectStoreController.handleTerminating (_osc : ObjectStoreController) (ds : DataStore)
    (store : ObjectStore) : HandlerOut :=
  if store.finalizers ≠ [] then
    match ds.removeFinalizerResult with
    | .ok _ => ⟨none, store.status, [.removeFinalizer]⟩
    | .error e => ⟨some (.store e), store.status, [.removeFinalizer]⟩
  else
    match ds.getService with
    | .ok _ => ⟨none, store.status, []⟩
    | .error e =>
      if e ≠ .notFound then ⟨some (.store e), store.status, []⟩
      else
        match ds.getDeployment with
        | .ok _ => ⟨none, store.status, []⟩
        | .error e2 =>
          if e2 ≠ .notFound then ⟨some (.store e2), store.status, []⟩
          else
            match ds.getPVC with
            | .ok _ => ⟨none, store.status, []⟩
            | .error e3 =>
              if e3 ≠ .notFound then ⟨some (.store e3), store.status, []⟩
              else
                match ds.getPV with
                | .ok _ => ⟨none, store.status, []⟩
                | .error e4 =>
                  if e4 ≠ .notFound then ⟨some (.store e4), store.status, []⟩
                  else
                    match ds.getVolume with
                    | .ok _ => ⟨none, store.status, []⟩
                    | .error e5 =>
                      if e5 ≠ .notFound then ⟨some (.store e5), store.status, []⟩
                      else ⟨none, store.status, []⟩

/-- initializeObjectStore from the source (name shortened): on first
observation, a target state other than Stopped moves the store to
Starting; a Stopped target leaves the status untouched. -/
def ObjectStoreController.initObjectStore (_osc : ObjectStoreController) (_ds : DataStore)
    (store : ObjectStore) : HandlerOut :=
  if ¬(store.spec.targetState = .stopped) then
    ⟨none, { store.status with state := .starting }, []⟩
  else ⟨none, store.status, []⟩

/-- isResponsibleFor from the source: the controller owning the backing
volume owns the store; a missing volume means any controller may claim
responsibility; any other volume lookup error means not responsible. -/
def ObjectStoreController.isResponsibleFor (osc : ObjectStoreController) (ds : DataStore)
    (_store : ObjectStore) : Bool :=
  match ds.getVolume with
  | .ok vol => osc.controllerID == vol.ownerID
  | .error e => if e = .notFound then true else false

/-- State dispatch of the reconcile entry point: a set deletion timestamp
first forces the Terminating state (returning nil) and, once there, runs
the termination path; otherwise the current state's handler runs, with
the switch default (uninitialized or unknown state) initializing the
store. -/
def ObjectStoreController.dispatch (osc : ObjectStoreController) (ds : DataStore)
    (store : ObjectStore) : HandlerOut :=
  if store.deletionTimestampSet then
    if store.status.state ≠ .terminating then
      ⟨none, { store.status with state := .terminating }, []⟩
    else osc.handleTerminating ds store
  else
    match store.status.state with
    | .starting => osc.handleStarting ds store
    | .error => osc.handleStarting ds store
    | .running => osc.handleRunning ds store
    | .stopping => osc.handleStopping ds store
    | .stopped => osc.handleStopped ds store
    | _ => osc.initObjectStore ds store

/-- Result of one reconcile pass: the returned error, the store object as
the pass left it (none when the key resolved to nothing), and the writes
issued, the deferred write-on-change status update last. -/
structure ReconcileOut where
  err : Option RErr
  store : Option ObjectStore
  writes : List WriteOp
  deriving DecidableEq

/-- reconcile from the source: resolve the store (not-found is success),
run the responsibility arbiter (not responsible is a no-op), snapshot the
status, dispatch on the state, and finally write the status back exactly
when the recomputed status differs (reflect.DeepEqual) from the snapshot;
the status update's own result is discarded (the function's result slot
is unnamed, so the deferred assignment cannot change it). -/
def ObjectStoreController.reconcile (osc : ObjectStoreController) (ds : DataStore) :
    ReconcileOut :=
  match ds.getObjectStore with
  | .error e => if e = .notFound then ⟨none, none, []⟩ else ⟨some (.store e), none, []⟩
  | .ok store =>
    if osc.isResponsibleFor ds store then
      let h := osc.dispatch ds store
      ⟨h.err, some { store with status := h.status },
        h.writes ++ (if h.status = store.status then [] else [.updateObjectStoreStatus h.status])⟩
    else ⟨none, some store, []⟩

/-- Datastore snapshot with the observed store object replaced: the view
of a second pass after a status write-back, all dependent observations
unchanged. -/
def DataStore.withStore (ds : DataStore) (st : ObjectStore) : DataStore :=
  { ds with getObjectStore := .ok st }

/-! Concrete fixtures, mirroring the test file's constants, used by the
witness and counterexample theorems. -/

/-- Controller fixture (TestObjectStoreControllerID and TestNamespace of
the test file). -/
def oscA : ObjectStoreController :=
  { controllerID := "test-objecte-store-controller"
    nspace := "longhorn-system"
    s3gwImage := "quay.io/s3gw/s3gw:latest"
    uiImage := "quay.io/s3gw/s3gw-ui:latest" }

/-- Spec fixture (osTestNewObjectStore): 10Gi size, the two test images,
the test secret, no public endpoints. -/
def specA : ObjectStoreSpec :=
  { size := 10737418240
    image := "quay.io/s3gw/s3gw:latest"
    uiImage := "quay.io/s3gw/s3gw-ui:latest"
    credentialsName := "test-secret"
    targetState := .running
    endpoints := []
    numberOfReplicas := 3 }

/-- Store fixture: fresh object, empty status. -/
def storeA : ObjectStore :=
  { name := "test-object-store"
    deletionTimestampSet := false
    finalizers := []
    spec := specA
    status := { state := .unknown, endpoints := [] } }

/-- Datastore fixture: the store exists, nothing else does, every write
succeeds, no registry secret configured. -/
def dsEmpty : DataStore :=
  { getObjectStore := .ok storeA
    getPVC := .error .notFound
    getVolume := .error .notFound
    getPV := .error .notFound
    getDeployment := .error .notFound
    getService := .error .notFound
    getIngress := fun _ => .error .notFound
    getSecret := .ok ()
    getSetting := .ok ""
    createPVCResult := .ok ()
    createVolumeResult := .ok ()
    createPVResult := .ok ()
    createDeploymentResult := .ok ()
    createServiceResult := .ok ()
    createIngressResult := fun _ => .ok ()
    updateDeploymentResult := .ok ()
    removeFinalizerResult := .ok () }

/-! Helper layer: no handler ever issues an updateObjectStoreStatus
write; only the deferred diff in reconcile does. -/

/-- Recogniser for the deferred status write. -/
def WriteOp.isStatusUpdate : WriteOp → Bool
  | .updateObjectStoreStatus _ => true
  | _ => false

/-- A write list free of status updates. -/
def statusFree (l : List WriteOp) : Prop :=
  ∀ op ∈ l, op.isStatusUpdate = false

theorem statusFree_nil : statusFree [] := by
  intro op hop; cases hop

theorem statusFree_append {l1 l2 : List WriteOp} :
    statusFree (l1 ++ l2) ↔ statusFree l1 ∧ statusFree l2 := by
  constructor
  · intro h
    exact ⟨fun op hop => h op (List.mem_append_left _ hop),
           fun op hop => h op (List.mem_append_right _ hop)⟩
  · intro h op hop
    rcases List.mem_append.mp hop with h1 | h2
    · exact h.1 op h1
    · exact h.2 op h2

theorem statusFree_cons {op : WriteOp} {l : List WriteOp} :
    statusFree (op :: l) ↔ op.isStatusUpdate = false ∧ statusFree l := by
  simp [statusFree]

theorem statusFree_createPVC (osc : ObjectStoreController) (ds : DataStore)
    (store : ObjectStore) : statusFree (osc.createPVC ds store).2 := by
  unfold ObjectStoreController.createPVC
  split <;> simp [statusFree, WriteOp.isStatusUpdate]

theorem statusFree_createVolume (osc : ObjectStoreController) (ds : DataStore)
    (store : ObjectStore) (pvc : PVC) : statusFree (osc.createVolume ds store pvc).2 := by
  unfold ObjectStoreController.createVolume
  split <;> simp [statusFree, WriteOp.isStatusUpdate]

theorem statusFree_createPV (osc : ObjectStoreController) (ds : DataStore)
    (store : ObjectStore) (vol : Volume) : statusFree (osc.createPV ds store vol).2 := by
  unfold ObjectStoreController.createPV
  split <;> simp [statusFree, WriteOp.isStatusUpdate]

theorem statusFree_createDeployment (osc : ObjectStoreController) (ds : DataStore)
    (store : ObjectStore) : statusFree (osc.createDeployment ds store).2 := by
  unfold ObjectStoreController.createDeployment
  split <;> (try split) <;> (try split) <;> (try split) <;>
    simp [statusFree, WriteOp.isStatusUpdate]

theorem statusFree_createService (osc : ObjectStoreController) (ds : DataStore)
    (store : ObjectStore) : statusFree (osc.createService ds store).2 := by
  unfold ObjectStoreController.createService
  split <;> simp [statusFree, WriteOp.isStatusUpdate]

theorem statusFree_getOrCreatePVC (osc : ObjectStoreController) (ds : DataStore)
    (store : ObjectStore) : statusFree (osc.getOrCreatePVC ds store).writes := by
  have hc := statusFree_createPVC osc ds store
  unfold ObjectStoreController.getOrCreatePVC
  split
  · exact statusFree_nil
  · split
    · split <;> simp_all
    · exact statusFree_nil

theorem statusFree_getOrCreateVolume (osc : ObjectStoreController) (ds : DataStore)
    (store : ObjectStore) (pvc : PVC) :
    statusFree (osc.getOrCreateVolume ds store pvc).writes := by
  have hc := statusFree_createVolume osc ds store pvc
  unfold ObjectStoreController.getOrCreateVolume
  split
  · exact statusFree_nil
  · split
    · split <;> simp_all
    · exact statusFree_nil

theorem statusFree_getOrCreatePV (osc : ObjectStoreController) (ds : DataStore)
    (store : ObjectStore) (vol : Volume) :
    statusFree (osc.getOrCreatePV ds store vol).writes := by
  have hc := statusFree_createPV osc ds store vol
  unfold ObjectStoreController.getOrCreatePV
  split
  · exact statusFree_nil
  · split
    · split <;> simp_all
    · exact statusFree_nil

theorem statusFree_getOrCreateDeployment (osc : ObjectStoreController) (ds : DataStore)
    (store : ObjectStore) : statusFree (osc.getOrCreateDeployment ds store).writes := by
  have hc := statusFree_createDeployment osc ds store
  unfold ObjectStoreController.getOrCreateDeployment
  split
  · exact statusFree_nil
  · split
    · split <;> simp_all
    · exact statusFree_nil

theorem statusFree_getOrCreateService (osc : ObjectStoreController) (ds : DataStore)
    (store : ObjectStore) : statusFree (osc.getOrCreateService ds store).writes := by
  have hc := statusFree_createService osc ds store
  unfold ObjectStoreController.getOrCreateService
  split
  · exact statusFree_nil
  · split
    · split <;> simp_all
    · exact statusFree_nil

theorem statusFree_s3EndpointsGo (osc : ObjectStoreController) (ds : DataStore)
    (storeName : String) (eps : List EndpointSpec) :
    ∀ st acc, statusFree (s3EndpointsGo osc ds storeName eps st acc).2.2 := by
  induction eps with
  | nil => intro st acc; exact statusFree_nil
  | cons ep rest ih =>
    intro st acc
    simp only [s3EndpointsGo]
    split
    · exact ih _ _
    · split
      · split
        · split
          · simp [statusFree, WriteOp.isStatusUpdate]
          · exact statusFree_cons.mpr ⟨rfl, ih _ _⟩
        · exact statusFree_cons.mpr ⟨rfl, ih _ _⟩
      · exact statusFree_nil

theorem statusFree_getOrCreateS3Endpoints (osc : ObjectStoreController) (ds : DataStore)
    (store : ObjectStore) : statusFree (osc.getOrCreateS3Endpoints ds store).writes := by
  simp only [ObjectStoreController.getOrCreateS3Endpoints]
  exact statusFree_s3EndpointsGo osc ds store.name store.spec.endpoints store.status []

theorem statusFree_imageStep (dpl : Deployment) (st : ObjectStoreStatus) (cname img : String)
    (d : Deployment) (s : ObjectStoreStatus) (ops : List WriteOp)
    (h : imageStep dpl st cname img = Except.ok (d, s, ops)) : statusFree ops := by
  simp only [imageStep] at h
  split at h
  · split at h
    · cases h
    · simp only [Except.ok.injEq, Prod.mk.injEq] at h
      obtain ⟨-, -, h3⟩ := h
      subst h3
      simp [statusFree, WriteOp.isStatusUpdate]
  · simp only [Except.ok.injEq, Prod.mk.injEq] at h
    obtain ⟨-, -, h3⟩ := h
    subst h3
    exact statusFree_nil

theorem statusFree_checkDeployment (osc : ObjectStoreController) (ds : DataStore)
    (dpl : Deployment) (store : ObjectStore) :
    statusFree (osc.checkDeployment ds dpl store).writes := by
  simp only [ObjectStoreController.checkDeployment]
  split
  · simp [statusFree, WriteOp.isStatusUpdate]
  · split
    · exact statusFree_nil
    · split
      · exact statusFree_nil
      · split
        · exact statusFree_imageStep _ _ _ _ _ _ _ (by assumption)
        · exact statusFree_append.mpr
            ⟨statusFree_imageStep _ _ _ _ _ _ _ (by assumption),
             statusFree_imageStep _ _ _ _ _ _ _ (by assumption)⟩

theorem statusFree_handleStarting (osc : ObjectStoreController) (ds : DataStore)
    (store : ObjectStore) : statusFree (osc.handleStarting ds store).writes := by
  simp only [ObjectStoreController.handleStarting]
  repeat' split
  all_goals repeat
    first
    | exact statusFree_getOrCreatePVC _ _ _
    | exact statusFree_getOrCreateVolume _ _ _ _
    | exact statusFree_getOrCreatePV _ _ _ _
    | exact statusFree_getOrCreateDeployment _ _ _
    | exact statusFree_getOrCreateService _ _ _
    | exact statusFree_getOrCreateS3Endpoints _ _ _
    | exact statusFree_checkDeployment _ _ _ _
    | exact statusFree_nil
    | (apply statusFree_append.mpr; constructor)

theorem statusFree_handleRunning (osc : ObjectStoreController) (ds : DataStore)
    (store : ObjectStore) : statusFree (osc.handleRunning ds store).writes := by
  simp only [ObjectStoreController.handleRunning]
  repeat' split
  all_goals
    first
    | exact statusFree_checkDeployment _ _ _ _
    | exact statusFree_nil

theorem statusFree_handleStopping (osc : ObjectStoreController) (ds : DataStore)
    (store : ObjectStore) : statusFree (osc.handleStopping ds store).writes := by
  simp only [ObjectStoreController.handleStopping]
  repeat' split
  all_goals
    first
    | exact statusFree_nil
    | simp [statusFree, WriteOp.isStatusUpdate]

theorem statusFree_handleStopped (osc : ObjectStoreController) (ds : DataStore)
    (store : ObjectStore) : statusFree (osc.handleStopped ds store).writes := by
  simp only [ObjectStoreController.handleStopped]
  split <;> exact statusFree_nil

theorem statusFree_handleTerminating (osc : ObjectStoreController) (ds : DataStore)
    (store : ObjectStore) : statusFree (osc.handleTerminating ds store).writes := by
  simp only [ObjectStoreController.handleTerminating]
  repeat' split
  all_goals
    first
    | exact statusFree_nil
    | simp [statusFree, WriteOp.isStatusUpdate]

theorem statusFree_initObjectStore (osc : ObjectStoreController) (ds : DataStore)
    (store : ObjectStore) : statusFree (osc.initObjectStore ds store).writes := by
  simp only [ObjectStoreController.initObjectStore]
  split <;> exact statusFree_nil

theorem statusFree_dispatch (osc : ObjectStoreController) (ds : DataStore)
    (store : ObjectStore) : statusFree (osc.dispatch ds store).writes := by
  simp only [ObjectStoreController.dispatch]
  repeat' split
  all_goals
    first
    | exact statusFree_nil
    | exact statusFree_handleTerminating _ _ _
    | exact statusFree_handleStarting _ _ _
    | exact statusFree_handleRunning _ _ _
    | exact statusFree_handleStopping _ _ _
    | exact statusFree_handleStopped _ _ _
    | exact statusFree_initObjectStore _ _ _

theorem reconcile_ok_responsible (osc : ObjectStoreController) (ds : DataStore)
    (store : ObjectStore) (hget : ds.getObjectStore = Except.ok store)
    (hresp : osc.isResponsibleFor ds store = true) :
    osc.reconcile ds =
      ⟨(osc.dispatch ds store).err,
       some { store with status := (osc.dispatch ds store).status },
       (osc.dispatch ds store).writes ++
         (if (osc.dispatch ds store).status = store.status then []
          else [.updateObjectStoreStatus (osc.dispatch ds store).status])⟩ := by
  simp only [ObjectStoreController.reconcile, hget, hresp, if_true]

theorem reconcile_ok_notResponsible (osc : ObjectStoreController) (ds : DataStore)
    (store : ObjectStore) (hget : ds.getObjectStore = Except.ok store)
    (hresp : osc.isResponsibleFor ds store = false) :
    osc.reconcile ds = ⟨none, some store, []⟩ := by
  simp only [ObjectStoreController.reconcile, hget, hresp]
  simp

/-- C1: a reconcile pass issues an updateObjectStoreStatus write exactly
when the recomputed status differs (deep equality over state and endpoint
list) from the status snapshotted at the start of the pass; and when a
pass performs no write at all (the observed cluster state is unchanged by
it), the store object is unchanged too, so a second reconcile of the same
observed cluster state performs no write — in particular no status
write — either. -/
theorem reconcile_status_write_iff_changed (osc : ObjectStoreController) (ds : DataStore)
    (store store₂ : ObjectStore)
    (hget : ds.getObjectStore = Except.ok store)
    (hout : (osc.reconcile ds).store = some store₂) :
    ((∃ s, WriteOp.updateObjectStoreStatus s ∈ (osc.reconcile ds).writes) ↔
      store₂.status ≠ store.status)
    ∧ ((osc.reconcile ds).writes = [] →
        store₂ = store ∧ (osc.reconcile (ds.withStore store₂)).writes = []) := by
  by_cases hresp : osc.isResponsibleFor ds store = true
  · have hrec := reconcile_ok_responsible osc ds store hget hresp
    have hsf := statusFree_dispatch osc ds store
    rw [hrec] at hout
    simp only [Option.some.injEq] at hout
    constructor
    · rw [hrec]
      constructor
      · rintro ⟨s, hs⟩
        rcases List.mem_append.mp hs with hmem | hmem
        · have := hsf _ hmem
          simp [WriteOp.isStatusUpdate] at this
        · by_cases hst : (osc.dispatch ds store).status = store.status
          · rw [if_pos hst] at hmem; cases hmem
          · rw [← hout]; simpa using hst
      · intro hne
        refine ⟨(osc.dispatch ds store).status, List.mem_append_right _ ?_⟩
        have hst : ¬(osc.dispatch ds store).status = store.status := by
          rw [← hout] at hne; simpa using hne
        rw [if_neg hst]
        exact List.mem_singleton_self _
    · intro hw
      rw [hrec] at hw
      rcases List.append_eq_nil.mp hw with ⟨hw1, hw2⟩
      by_cases hst : (osc.dispatch ds store).status = store.status
      · have hstore2 : store₂ = store := by rw [← hout, hst]
        refine ⟨hstore2, ?_⟩
        have hds : ds.withStore store₂ = ds := by
          rw [hstore2]
          show { ds with getObjectStore := Except.ok store } = ds
          rw [← hget]
        rw [hds, hrec]
        simp only []
        rw [hw1, if_pos hst]
        rfl
      · rw [if_neg hst] at hw2; cases hw2
  · have hb : osc.isResponsibleFor ds store = false := by simpa using hresp
    have hrec := reconcile_ok_notResponsible osc ds store hget hb
    rw [hrec] at hout
    simp only [Option.some.injEq] at hout
    subst hout
    constructor
    · rw [hrec]; simp
    · intro _
      refine ⟨rfl, ?_⟩
      have hds : ds.withStore store = ds := by
        show { ds with getObjectStore := Except.ok store } = ds
        rw [← hget]
      rw [hds, hrec]

/-- Witness for C1 at the concrete first-observation fixture: the pass
recomputes a different status (uninitialized to Starting) and does issue
a status write. -/
theorem reconcile_status_write_iff_changed_witness :
    ∃ s, WriteOp.updateObjectStoreStatus s ∈ (oscA.reconcile dsEmpty).writes := by
  have h := reconcile_status_write_iff_changed oscA dsEmpty storeA
    { storeA with status := ⟨.starting, []⟩ } rfl (by decide)
  exact h.1.mpr (by decide)

/-- C2: the uniform get-or-create contract, for each of the five
dependent-resource kinds (claim, volume, PV handle, deployment, service):
a successful lookup returns the resource unchanged with no write and no
status change; a not-found lookup followed by a successful create returns
the resource synthesized from the spec, issues exactly that create, and
nudges the state to Starting unless it already is Starting (the
nudgeStarting conjunct spells that out); any other lookup error is
propagated unchanged with no create and no status change. -/
theorem getOrCreate_contract (osc : ObjectStoreController) (ds : DataStore)
    (store : ObjectStore) :
    (∀ st : ObjectStoreStatus, (nudgeStarting st).state = .starting ∧
        (st.state = .starting → nudgeStarting st = st))
    ∧ (∀ p, ds.getPVC = .ok p →
        osc.getOrCreatePVC ds store = ⟨.ok p, store.status, []⟩)
    ∧ (ds.getPVC = .error .notFound → ds.createPVCResult = .ok () →
        osc.getOrCreatePVC ds store =
          ⟨.ok (buildPVC store), nudgeStarting store.status, [.createPVC (buildPVC store)]⟩)
    ∧ (∀ e, ds.getPVC = .error e → e ≠ .notFound →
        osc.getOrCreatePVC ds store = ⟨.error e, store.status, []⟩)
    ∧ (∀ pvc p, ds.getVolume = .ok p →
        osc.getOrCreateVolume ds store pvc = ⟨.ok p, store.status, []⟩)
    ∧ (∀ pvc, ds.getVolume = .error .notFound → ds.createVolumeResult = .ok () →
        osc.getOrCreateVolume ds store pvc =
          ⟨.ok (buildVolume store), nudgeStarting store.status,
           [.createVolume (buildVolume store)]⟩)
    ∧ (∀ pvc e, ds.getVolume = .error e → e ≠ .notFound →
        osc.getOrCreateVolume ds store pvc = ⟨.error e, store.status, []⟩)
    ∧ (∀ vol p, ds.getPV = .ok p →
        osc.getOrCreatePV ds store vol = ⟨.ok p, store.status, []⟩)
    ∧ (∀ vol, ds.getPV = .error .notFound → ds.createPVResult = .ok () →
        osc.getOrCreatePV ds store vol =
          ⟨.ok (buildPV store), nudgeStarting store.status, [.createPV (buildPV store)]⟩)
    ∧ (∀ vol e, ds.getPV = .error e → e ≠ .notFound →
        osc.getOrCreatePV ds store vol = ⟨.error e, store.status, []⟩)
    ∧ (∀ d, ds.getDeployment = .ok d →
        osc.getOrCreateDeployment ds store = ⟨.ok d, store.status, []⟩)
    ∧ (∀ sv, ds.getDeployment = .error .notFound →
        (ds.getSecret = .ok () ∨ ds.getSecret = .error .notFound) →
        ds.getSetting = .ok sv → ds.createDeploymentResult = .ok () →
        osc.getOrCreateDeployment ds store =
          ⟨.ok (buildDeployment store), nudgeStarting store.status,
           [.createDeployment (buildDeployment store)]⟩)
    ∧ (∀ e, ds.getDeployment = .error e → e ≠ .notFound →
        osc.getOrCreateDeployment ds store = ⟨.error e, store.status, []⟩)
    ∧ (∀ s, ds.getService = .ok s →
        osc.getOrCreateService ds store = ⟨.ok s, store.status, []⟩)
    ∧ (ds.getService = .error .notFound → ds.createServiceResult = .ok () →
        osc.getOrCreateService ds store =
          ⟨.ok (buildService store), nudgeStarting store.status,
           [.createService (buildService store)]⟩)
    ∧ (∀ e, ds.getService = .error e → e ≠ .notFound →
        osc.getOrCreateService ds store = ⟨.error e, store.status, []⟩) := by
  refine ⟨?_, ?_, ?_, ?_, ?_, ?_, ?_, ?_, ?_, ?_, ?_, ?_, ?_, ?_, ?_, ?_⟩
  · intro st
    constructor
    · by_cases h : st.state = ObjectStoreState.starting <;> simp [nudgeStarting, h]
    · intro h; simp [nudgeStarting, h]
  · intro p hp; simp [ObjectStoreController.getOrCreatePVC, hp]
  · intro h1 h2
    simp [ObjectStoreController.getOrCreatePVC, ObjectStoreController.createPVC, h1, h2]
  · intro e he hne
    simp only [ObjectStoreController.getOrCreatePVC, he]
    rw [if_neg hne]
  · intro pvc p hp; simp [ObjectStoreController.getOrCreateVolume, hp]
  · intro pvc h1 h2
    simp [ObjectStoreController.getOrCreateVolume, ObjectStoreController.createVolume, h1, h2]
  · intro pvc e he hne
    simp only [ObjectStoreController.getOrCreateVolume, he]
    rw [if_neg hne]
  · intro vol p hp; simp [ObjectStoreController.getOrCreatePV, hp]
  · intro vol h1 h2
    simp [ObjectStoreController.getOrCreatePV, ObjectStoreController.createPV, h1, h2]
  · intro vol e he hne
    simp only [ObjectStoreController.getOrCreatePV, he]
    rw [if_neg hne]
  · intro d hd; simp [ObjectStoreController.getOrCreateDeployment, hd]
  · intro sv hd hsec hset hcr
    rcases hsec with hsec | hsec <;>
      simp [ObjectStoreController.getOrCreateDeployment,
        ObjectStoreController.createDeployment, hd, hsec, hset, hcr]
  · intro e he hne
    simp only [ObjectStoreController.getOrCreateDeployment, he]
    rw [if_neg hne]
  · intro s hs; simp [ObjectStoreController.getOrCreateService, hs]
  · intro h1 h2
    simp [ObjectStoreController.getOrCreateService, ObjectStoreController.createService, h1, h2]
  · intro e he hne
    simp only [ObjectStoreController.getOrCreateService, he]
    rw [if_neg hne]

/-- Witness for C2 at a concrete input: with no claim in the store and a
succeeding create, getOrCreatePVC creates the claim built from the spec
and nudges the state to Starting. -/
theorem getOrCreate_contract_witness :
    oscA.getOrCreatePVC dsEmpty storeA =
      ⟨.ok (buildPVC storeA), nudgeStarting storeA.status,
       [.createPVC (buildPVC storeA)]⟩ :=
  (getOrCreate_contract oscA dsEmpty storeA).2.2.1 rfl rfl

/-- C6: responsibility arbitration: a not-found backing volume makes the
controller responsible; an existing volume recorded as owned by a
different controller identity makes the whole reconcile pass a no-op
success (no error, store untouched, no writes). -/
theorem responsibility_contract (osc : ObjectStoreController) (ds : DataStore)
    (store : ObjectStore) :
    (ds.getVolume = .error .notFound → osc.isResponsibleFor ds store = true)
    ∧ (∀ vol, ds.getVolume = .ok vol → vol.ownerID ≠ osc.controllerID →
        ds.getObjectStore = .ok store →
        osc.reconcile ds = ⟨none, some store, []⟩) := by
  constructor
  · intro h; simp [ObjectStoreController.isResponsibleFor, h]
  · intro vol hv hown hget
    have hresp : osc.isResponsibleFor ds store = false := by
      simp only [ObjectStoreController.isResponsibleFor, hv, beq_eq_false_iff_ne]
      exact Ne.symm hown
    exact reconcile_ok_notResponsible osc ds store hget hresp

/-- Volume fixture owned by a different controller instance. -/
def volForeign : Volume :=
  { name := "pv-test-object-store"
    size := 10737418240
    numberOfReplicas := 3
    robustness := ""
    ownerID := "another-controller" }

/-- Datastore fixture in which the backing volume is owned elsewhere. -/
def dsForeign : DataStore := { dsEmpty with getVolume := .ok volForeign }

/-- Witness for C6 at a concrete input: a foreign-owned volume makes the
pass a no-op success. -/
theorem responsibility_contract_witness :
    oscA.reconcile dsForeign = ⟨none, some storeA, []⟩ :=
  (responsibility_contract oscA dsForeign storeA).2 volForeign rfl (by decide) rfl

/-- C8: a reconcile key that resolves to no ObjectStore is success:
no error, nothing touched, no write of any kind. -/
theorem reconcile_missing_store (osc : ObjectStoreController) (ds : DataStore)
    (h : ds.getObjectStore = .error .notFound) :
    osc.reconcile ds = ⟨none, none, []⟩ := by
  simp [ObjectStoreController.reconcile, h]

/-- Datastore fixture whose store lookup is not-found. -/
def dsNoStore : DataStore := { dsEmpty with getObjectStore := .error .notFound }

/-- Witness for C8 at a concrete input. -/
theorem reconcile_missing_store_witness :
    oscA.reconcile dsNoStore = ⟨none, none, []⟩ :=
  reconcile_missing_store oscA dsNoStore rfl

/-- C3: the Stopping handler with a found deployment whose desired
replica count is defined and whose available-replica count is
non-negative (any real deployment): a positive desired count is scaled to
0 with the state staying Stopping; a zero desired count with available
pods left changes nothing; and the state becomes Stopped exactly when the
desired count is zero and no pod is available. -/
theorem handleStopping_contract (osc : ObjectStoreController) (ds : DataStore)
    (store : ObjectStore) (dpl : Deployment) (r : Int)
    (hget : ds.getDeployment = Except.ok dpl)
    (hrep : dpl.specReplicas = some r)
    (hav : 0 ≤ dpl.availableReplicas)
    (hstate : store.status.state = .stopping) :
    (0 < r →
      (osc.handleStopping ds store).writes =
        [.updateDeployment { dpl with specReplicas := some 0 }] ∧
      (osc.handleStopping ds store).status.state = .stopping)
    ∧ (r = 0 → 0 < dpl.availableReplicas →
        osc.handleStopping ds store = ⟨none, store.status, []⟩)
    ∧ ((osc.handleStopping ds store).status.state = .stopped ↔
        r = 0 ∧ dpl.availableReplicas = 0) := by
  simp only [ObjectStoreController.handleStopping, hget, hrep]
  refine ⟨?_, ?_, ?_⟩
  · intro hr
    rw [if_pos (by omega : r ≠ 0)]
    cases ds.updateDeploymentResult <;> simp [hstate]
  · intro h0 hp
    subst h0
    rw [if_neg (by simp), if_pos hp]
  · by_cases hr0 : r = 0
    · subst hr0
      rw [if_neg (by simp)]
      by_cases hp : dpl.availableReplicas > 0
      · rw [if_pos hp]
        simp [hstate]
        omega
      · rw [if_neg hp]
        simp
        omega
    · rw [if_pos hr0]
      cases ds.updateDeploymentResult <;> simp [hstate, hr0]

/-- Store fixture in state Stopping. -/
def storeStopping : ObjectStore :=
  { storeA with status := ⟨.stopping, ["test-object-store.longhorn-system.svc"]⟩ }

/-- Deployment fixture still scaled to one replica. -/
def dplOne : Deployment := { buildDeployment storeA with specReplicas := some 1 }

/-- Datastore fixture for the stopping scenario. -/
def dsStopping : DataStore :=
  { dsEmpty with getObjectStore := .ok storeStopping, getDeployment := .ok dplOne }

/-- Witness for C3 at a concrete input: one desired replica is scaled to
0 and the state stays Stopping. -/
theorem handleStopping_contract_witness :
    (oscA.handleStopping dsStopping storeStopping).writes =
      [.updateDeployment { dplOne with specReplicas := some 0 }] ∧
    (oscA.handleStopping dsStopping storeStopping).status.state = .stopping :=
  (handleStopping_contract oscA dsStopping storeStopping dplOne 1 rfl rfl (by decide) rfl).1
    (by decide)

/-- Failure condition of the Running-state sanity check: some dependent
lookup fails or some health check rejects the observed resource (claim
not bound, volume faulted, deployment not ready or mis-scaled). -/
def runningFailure (osc : ObjectStoreController) (ds : DataStore) (store : ObjectStore) : Prop :=
  (∃ e, ds.getDeployment = .error e)
  ∨ (∃ dpl, ds.getDeployment = .ok dpl ∧ (osc.checkDeployment ds dpl store).err ≠ none)
  ∨ (∃ e, ds.getService = .error e)
  ∨ (∃ e, ds.getPVC = .error e)
  ∨ (∃ pvc, ds.getPVC = .ok pvc ∧ checkPVC pvc ≠ none)
  ∨ (∃ e, ds.getVolume = .error e)
  ∨ (∃ vol, ds.getVolume = .ok vol ∧ checkVolume vol ≠ none)
  ∨ (∃ e, ds.getPV = .error e)
  ∨ (∃ pv, ds.getPV = .ok pv ∧ checkPV pv ≠ none)

/-- C5: while Running with a target state other than Stopped, any
dependency lookup failure or health-check failure makes the handler
return an error with the state set to Error. -/
theorem handleRunning_failure_sets_error (osc : ObjectStoreController) (ds : DataStore)
    (store : ObjectStore)
    (htarget : store.spec.targetState ≠ .stopped)
    (hfail : runningFailure osc ds store) :
    (osc.handleRunning ds store).err ≠ none ∧
    (osc.handleRunning ds store).status.state = .error := by
  simp only [ObjectStoreController.handleRunning]
  rw [if_neg htarget]
  repeat' split
  all_goals first
    | (constructor <;> (simp; done))
    | (exfalso
       rcases hfail with ⟨e, h⟩ | ⟨d, h1, h2⟩ | ⟨e, h⟩ | ⟨e, h⟩ | ⟨p, h1, h2⟩ |
         ⟨e, h⟩ | ⟨v, h1, h2⟩ | ⟨e, h⟩ | ⟨p, h1, h2⟩ <;> simp_all)

/-- Store fixture in state Running. -/
def storeRunning : ObjectStore :=
  { storeA with status := ⟨.running, ["test-object-store.longhorn-system.svc"]⟩ }

/-- Datastore fixture in which the deployment lookup fails with an opaque
API error. -/
def dsBroken : DataStore :=
  { dsEmpty with getObjectStore := .ok storeRunning, getDeployment := .error (.other 7) }

/-- Witness for C5 at a concrete input: a failing deployment lookup while
Running surfaces an error and moves the state to Error. -/
theorem handleRunning_failure_sets_error_witness :
    (oscA.handleRunning dsBroken storeRunning).err ≠ none ∧
    (oscA.handleRunning dsBroken storeRunning).status.state = .error :=
  handleRunning_failure_sets_error oscA dsBroken storeRunning (by decide)
    (Or.inl ⟨.other 7, rfl⟩)

/-- Store fixture marked for deletion, already Terminating, finalizers
cleared. -/
def storeTerm : ObjectStore :=
  { storeA with
    deletionTimestampSet := true
    finalizers := []
    status := ⟨.terminating, []⟩ }

/-- Datastore fixture: the terminating store still has its service. -/
def dsTermSvc : DataStore :=
  { dsEmpty with getObjectStore := .ok storeTerm, getService := .ok (buildService storeA) }

/-- Counterexample to C4: a Terminating store with no finalizers whose
service still exists gets a success (nil error) reconcile return — the
termination path reports success while a dependent is still present, not
only once every dependent resolves to not-found. -/
theorem terminating_success_with_dependent_present :
    (oscA.reconcile dsTermSvc).err = none ∧
    dsTermSvc.getService = Except.ok (buildService storeA) ∧
    storeTerm.status.state = .terminating ∧
    storeTerm.deletionTimestampSet = true ∧
    storeTerm.finalizers = [] :=
  ⟨rfl, rfl, rfl, rfl, rfl⟩

/-- C4 amended: a set deletion timestamp first transitions the state to
Terminating if it is not already; in Terminating a non-empty finalizer
list is cleared by a single removeFinalizer write (one-shot); with the
finalizer absent, a successful (completion) return is reported once every
dependent resource (service, deployment, storage claim, bound volume,
storage volume) resolves to not-found — and equally while a dependent
still exists, whichever dependent of the lookup chain it is: the pass is
then a no-op wait for the deletion cascade. -/
theorem terminating_contract (osc : ObjectStoreController) (ds : DataStore)
    (store : ObjectStore) :
    (store.deletionTimestampSet = true → store.status.state ≠ .terminating →
      osc.dispatch ds store = ⟨none, { store.status with state := .terminating }, []⟩)
    ∧ (store.finalizers ≠ [] →
        (osc.handleTerminating ds store).writes = [.removeFinalizer] ∧
        (osc.handleTerminating ds store).status = store.status)
    ∧ (store.finalizers = [] →
        ds.getService = .error .notFound → ds.getDeployment = .error .notFound →
        ds.getPVC = .error .notFound → ds.getPV = .error .notFound →
        ds.getVolume = .error .notFound →
        osc.handleTerminating ds store = ⟨none, store.status, []⟩)
    ∧ (store.finalizers = [] → ∀ svc, ds.getService = .ok svc →
        osc.handleTerminating ds store = ⟨none, store.status, []⟩)
    ∧ (store.finalizers = [] → ds.getService = .error .notFound →
        ∀ d, ds.getDeployment = .ok d →
        osc.handleTerminating ds store = ⟨none, store.status, []⟩)
    ∧ (store.finalizers = [] → ds.getService = .error .notFound →
        ds.getDeployment = .error .notFound →
        ∀ p, ds.getPVC = .ok p →
        osc.handleTerminating ds store = ⟨none, store.status, []⟩)
    ∧ (store.finalizers = [] → ds.getService = .error .notFound →
        ds.getDeployment = .error .notFound → ds.getPVC = .error .notFound →
        ∀ p, ds.getPV = .ok p →
        osc.handleTerminating ds store = ⟨none, store.status, []⟩)
    ∧ (store.finalizers = [] → ds.getService = .error .notFound →
        ds.getDeployment = .error .notFound → ds.getPVC = .error .notFound →
        ds.getPV = .error .notFound →
        ∀ v, ds.getVolume = .ok v →
        osc.handleTerminating ds store = ⟨none, store.status, []⟩) := by
  refine ⟨?_, ?_, ?_, ?_, ?_, ?_, ?_, ?_⟩
  · intro hdel hst
    simp [ObjectStoreController.dispatch, hdel, hst]
  · intro hf
    simp only [ObjectStoreController.handleTerminating]
    rw [if_pos hf]
    cases ds.removeFinalizerResult <;> simp
  · intro hf h1 h2 h3 h4 h5
    simp [ObjectStoreController.handleTerminating, hf, h1, h2, h3, h4, h5]
  · intro hf svc hsvc
    simp [ObjectStoreController.handleTerminating, hf, hsvc]
  · intro hf h1 d hd
    simp [ObjectStoreController.handleTerminating, hf, h1, hd]
  · intro hf h1 h2 p hp
    simp [ObjectStoreController.handleTerminating, hf, h1, h2, hp]
  · intro hf h1 h2 h3 p hp
    simp [ObjectStoreController.handleTerminating, hf, h1, h2, h3, hp]
  · intro hf h1 h2 h3 h4 v hv
    simp [ObjectStoreController.handleTerminating, hf, h1, h2, h3, h4, hv]

/-- Datastore fixture in which every dependent of the terminating store
is already gone. -/
def dsTermGone : DataStore := { dsEmpty with getObjectStore := .ok storeTerm }

/-- Witness for the amended C4 at concrete inputs: with the finalizer
gone, termination reports success with no writes both when all dependents
are not-found and when the service still exists. -/
theorem terminating_contract_witness :
    oscA.handleTerminating dsTermGone storeTerm = ⟨none, storeTerm.status, []⟩ ∧
    oscA.handleTerminating dsTermSvc storeTerm = ⟨none, storeTerm.status, []⟩ :=
  ⟨(terminating_contract oscA dsTermGone storeTerm).2.2.1 rfl rfl rfl rfl rfl rfl,
   (terminating_contract oscA dsTermSvc storeTerm).2.2.2.1 rfl (buildService storeA) rfl⟩

/-- Counterexample to C7: one reconcile pass on a fresh store with empty
status and no dependents performs only the status write (now Starting) —
no storage claim is created on this pass, so no claim exists after it. -/
theorem initialize_pass_creates_no_claim :
    oscA.reconcile dsEmpty =
      ⟨none, some { storeA with status := ⟨.starting, []⟩ },
       [.updateObjectStoreStatus ⟨.starting, []⟩]⟩ := rfl

/-- Helper: the not-found/create-success case of getOrCreatePVC in
equational form. -/
theorem getOrCreatePVC_notFound_ok (osc : ObjectStoreController) (ds : DataStore)
    (store : ObjectStore)
    (h1 : ds.getPVC = .error .notFound) (h2 : ds.createPVCResult = .ok ()) :
    osc.getOrCreatePVC ds store =
      ⟨.ok (buildPVC store), nudgeStarting store.status, [.createPVC (buildPVC store)]⟩ := by
  simp [ObjectStoreController.getOrCreatePVC, ObjectStoreController.createPVC, h1, h2]

/-- C7 amended: a pass on an uninitialized status with target state other
than Stopped only transitions the state to Starting, creating nothing;
with target Stopped the status stays uninitialized and nothing is
created; the storage claim is created on the following pass, which runs
the Starting handler. -/
theorem initialize_then_create_contract (osc : ObjectStoreController) (ds : DataStore)
    (store : ObjectStore)
    (hstate : store.status.state = .unknown)
    (hdel : store.deletionTimestampSet = false) :
    (store.spec.targetState ≠ .stopped →
      osc.dispatch ds store = ⟨none, { store.status with state := .starting }, []⟩)
    ∧ (store.spec.targetState = .stopped →
        osc.dispatch ds store = ⟨none, store.status, []⟩)
    ∧ (∀ store₂ : ObjectStore, store₂.status.state = .starting →
        store₂.deletionTimestampSet = false →
        ds.getPVC = .error .notFound → ds.createPVCResult = .ok () →
        WriteOp.createPVC (buildPVC store₂) ∈ (osc.dispatch ds store₂).writes) := by
  refine ⟨?_, ?_, ?_⟩
  · intro ht
    simp [ObjectStoreController.dispatch, ObjectStoreController.initObjectStore, hdel, hstate, ht]
  · intro ht
    simp [ObjectStoreController.dispatch, ObjectStoreController.initObjectStore, hdel, hstate, ht]
  · intro store₂ hs2 hd2 hpvc hcr
    simp only [ObjectStoreController.dispatch, hd2, hs2]
    simp only [Bool.false_eq_true, if_false]
    simp only [ObjectStoreController.handleStarting,
      getOrCreatePVC_notFound_ok osc ds store₂ hpvc hcr]
    repeat' split
    all_goals simp

/-- Store fixture already in state Starting. -/
def storeStarting : ObjectStore := { storeA with status := ⟨.starting, []⟩ }

/-- Witness for the amended C7 at concrete inputs: the first pass only
flips the state to Starting; the next pass (state Starting) issues the
storage-claim create. -/
theorem initialize_then_create_contract_witness :
    oscA.dispatch dsEmpty storeA = ⟨none, { storeA.status with state := .starting }, []⟩ ∧
    WriteOp.createPVC (buildPVC storeStarting) ∈ (oscA.dispatch dsEmpty storeStarting).writes :=
  ⟨(initialize_then_create_contract oscA dsEmpty storeA rfl rfl).1 (by decide),
   (initialize_then_create_contract oscA dsEmpty storeA rfl rfl).2.2 storeStarting rfl rfl rfl rfl⟩

/-- C9: the ingress built for a declared public endpoint has exactly one
exact-host rule and one wildcard-host rule, both routing "/" to the
service's s3 port; its TLS block is present exactly when a TLS secret
name was supplied, and then covers both hosts; and an already-exists
outcome of the ingress create is treated as success: the ingress counts
as ensured and the endpoint's domain is appended to the status, with no
error. -/
theorem s3Endpoints_contract (osc : ObjectStoreController) (ds : DataStore)
    (store : ObjectStore) (ep : EndpointSpec) :
    ((buildIngress store.name ep).rules =
      [ ⟨ep.domainName, [⟨"/", store.name, "s3"⟩]⟩,
        ⟨"*." ++ ep.domainName, [⟨"/", store.name, "s3"⟩]⟩ ])
    ∧ ((buildIngress store.name ep).tls ≠ [] ↔ ep.tlsName ≠ "")
    ∧ (ep.tlsName ≠ "" →
        (buildIngress store.name ep).tls =
          [⟨ep.tlsName, [ep.domainName, "*." ++ ep.domainName]⟩])
    ∧ (store.spec.endpoints = [ep] →
        ds.getIngress (store.name ++ "-" ++ ep.name) = .error .notFound →
        ds.createIngressResult (store.name ++ "-" ++ ep.name) = .error .alreadyExists →
        osc.getOrCreateS3Endpoints ds store =
          ⟨.ok [buildIngress store.name ep],
           { store.status with endpoints := store.status.endpoints ++ [ep.domainName] },
           [.createIngress (buildIngress store.name ep)]⟩) := by
  refine ⟨rfl, ?_, ?_, ?_⟩
  · by_cases h : ep.tlsName = "" <;> simp [buildIngress, h]
  · intro h; simp [buildIngress, h]
  · intro heps hing hcr
    simp [ObjectStoreController.getOrCreateS3Endpoints, heps, s3EndpointsGo, hing, hcr]

/-- Endpoint fixture without TLS. -/
def epA : EndpointSpec := { name := "ep1", domainName := "s3.example.com", tlsName := "" }

/-- Store fixture declaring one public endpoint. -/
def storeEp : ObjectStore := { storeA with spec := { specA with endpoints := [epA] } }

/-- Datastore fixture in which the ingress create races and reports
already-exists. -/
def dsEp : DataStore :=
  { dsEmpty with
    getObjectStore := .ok storeEp
    createIngressResult := fun _ => .error .alreadyExists }

/-- Witness for C9 at a concrete input: the already-exists create still
ensures the ingress and appends the endpoint, error-free. -/
theorem s3Endpoints_contract_witness :
    oscA.getOrCreateS3Endpoints dsEp storeEp =
      ⟨.ok [buildIngress storeEp.name epA],
       { storeEp.status with endpoints := storeEp.status.endpoints ++ [epA.domainName] },
       [.createIngress (buildIngress storeEp.name epA)]⟩ :=
  (s3Endpoints_contract oscA dsEp storeEp epA).2.2.2 rfl rfl rfl

/-- Helper: rewriting the image of the named container and then reading
it back yields the new image (the first container whose name matches is
found, and the map rewrote its image). -/
theorem find_map_setImage (cs : List Container) (cname img : String)
    (h : cs.any (fun c => c.name == cname) = true) :
    (cs.map (fun c => if c.name == cname then { c with image := img } else c)).find?
        (fun c => c.name == cname) = some { name := cname, image := img } := by
  induction cs with
  | nil => cases h
  | cons c rest ih =>
    simp only [List.map_cons]
    by_cases hc : c.name = cname
    · have hfc : (if (c.name == cname) = true then { c with image := img } else c)
          = ({ name := cname, image := img } : Container) := by simp [hc]
      rw [hfc, List.find?_cons_of_pos _ (by simp)]
    · have hfc : (if (c.name == cname) = true then { c with image := img } else c) = c := by
        simp [hc]
      rw [hfc, List.find?_cons_of_neg _ (by simp [hc])]
      apply ih
      simp only [List.any_cons] at h
      simpa [hc] using h

/-- The deployment with the named container's image rewritten: the shape
of a successful setImageOfDeploymentContainerWithName result. -/
def withContainerImage (dpl : Deployment) (cname img : String) : Deployment :=
  { dpl with
    containers := dpl.containers.map
      (fun c => if c.name == cname then { c with image := img } else c) }

/-- Helper: when the named container exists, the image setter succeeds
with the rewritten deployment. -/
theorem setImage_of_any (dpl : Deployment) (cname img : String)
    (hany : (dpl.containers.any (fun c => c.name == cname)) = true) :
    setImageOfDeploymentContainerWithName dpl cname img =
      Except.ok (withContainerImage dpl cname img) := by
  simp [setImageOfDeploymentContainerWithName, withContainerImage, hany]

/-- Helper: reading the named container's image back after the rewrite
yields the new image. -/
theorem getImage_withContainerImage (dpl : Deployment) (cname img : String)
    (hany : (dpl.containers.any (fun c => c.name == cname)) = true) :
    getImageOfDeploymentContainerWithName (withContainerImage dpl cname img) cname = img := by
  simp only [getImageOfDeploymentContainerWithName, withContainerImage]
  rw [find_map_setImage dpl.containers cname img hany]

/-- Helper: an image step on a differing image, with the container
present, rewrites the image, sets the state to Starting and issues the
update write. -/
theorem imageStep_differs (dpl : Deployment) (st : ObjectStoreStatus) (cname img : String)
    (himg : getImageOfDeploymentContainerWithName dpl cname ≠ img)
    (hany : (dpl.containers.any (fun c => c.name == cname)) = true) :
    imageStep dpl st cname img =
      Except.ok (withContainerImage dpl cname img, { st with state := .starting },
        [.updateDeployment (withContainerImage dpl cname img)]) := by
  simp only [imageStep]
  rw [if_pos himg, setImage_of_any dpl cname img hany]

/-- Helper: an image step that succeeds either leaves the status alone or
sets the state to Starting. -/
theorem imageStep_state (dpl : Deployment) (st : ObjectStoreStatus) (cname img : String)
    (d : Deployment) (s : ObjectStoreStatus) (ops : List WriteOp)
    (h : imageStep dpl st cname img = Except.ok (d, s, ops)) :
    s = st ∨ s = { st with state := .starting } := by
  simp only [imageStep] at h
  split at h
  · split at h
    · cases h
    · simp only [Except.ok.injEq, Prod.mk.injEq] at h
      obtain ⟨-, h2, -⟩ := h
      right; exact h2.symm
  · simp only [Except.ok.injEq, Prod.mk.injEq] at h
    obtain ⟨-, h2, -⟩ := h
    left; exact h2.symm

/-- Deployment fixture: desired replicas 1 but no replica observed yet,
with a stale main-container image. -/
def dplStale : Deployment :=
  { name := "test-object-store"
    specReplicas := some 1
    strategy := "Recreate"
    containers :=
      [ ⟨objectStoreContainerName, "quay.io/s3gw/s3gw:old"⟩
      , ⟨objectStoreUIContainerName, "quay.io/s3gw/s3gw-ui:latest"⟩ ]
    statusReplicas := 0
    availableReplicas := 0
    unavailableReplicas := 0 }

/-- Counterexample to C10: a deployment whose main-container image
differs from the spec but which is not ready (no observed replica) gets
no image update written at all — checkDeployment returns "deployment not
ready" with an empty write list and an unchanged status, although the
image differs. -/
theorem checkDeployment_stale_image_no_write :
    oscA.checkDeployment dsEmpty dplStale storeA =
      ⟨some (.check "deployment not ready"), dplStale, storeA.status, []⟩ ∧
    getImageOfDeploymentContainerWithName dplStale objectStoreContainerName ≠
      storeA.spec.image := by
  exact ⟨rfl, by decide⟩

/-- C10 amended: checkDeployment writes a scale-to-1 update and reports
unhealthy whenever the desired replica count differs from 1; when the
count is 1 and the deployment is otherwise ready (nonzero observed
replicas, none unavailable), a main-container image differing from the
spec causes an image update write and a state reset to Starting; when the
deployment is not ready a differing image causes no write (the
counterexample); and the outcome never depends on the store's response to
the issued updates — their results are ignored. -/
theorem checkDeployment_contract (osc : ObjectStoreController) (ds : DataStore)
    (dpl : Deployment) (store : ObjectStore) :
    (dpl.specReplicas ≠ some 1 →
      osc.checkDeployment ds dpl store =
        ⟨some (.check "deployment just scaled"), { dpl with specReplicas := some 1 },
         store.status, [.updateDeployment { dpl with specReplicas := some 1 }]⟩)
    ∧ (dpl.specReplicas = some 1 →
        (dpl.statusReplicas = 0 ∨ dpl.unavailableReplicas > 0) →
        osc.checkDeployment ds dpl store =
          ⟨some (.check "deployment not ready"), dpl, store.status, []⟩)
    ∧ (dpl.specReplicas = some 1 →
        ¬(dpl.statusReplicas = 0 ∨ dpl.unavailableReplicas > 0) →
        getImageOfDeploymentContainerWithName dpl objectStoreContainerName ≠
          store.spec.image →
        (dpl.containers.any (fun c => c.name == objectStoreContainerName)) = true →
        (∃ d, WriteOp.updateDeployment d ∈ (osc.checkDeployment ds dpl store).writes ∧
          getImageOfDeploymentContainerWithName d objectStoreContainerName =
            store.spec.image) ∧
        (osc.checkDeployment ds dpl store).status.state = .starting)
    ∧ (∀ ds2 : DataStore, osc.checkDeployment ds dpl store = osc.checkDeployment ds2 dpl store) := by
  refine ⟨?_, ?_, ?_, ?_⟩
  · intro h
    simp only [ObjectStoreController.checkDeployment]
    rw [if_pos h]
  · intro h1 h2
    simp only [ObjectStoreController.checkDeployment]
    rw [if_neg (by simp [h1]), if_pos h2]
  · intro h1 h2 himg hany
    have hget := getImage_withContainerImage dpl objectStoreContainerName store.spec.image hany
    simp only [ObjectStoreController.checkDeployment,
      imageStep_differs dpl store.status objectStoreContainerName store.spec.image himg hany]
    rw [if_neg (by simp [h1]), if_neg h2]
    split
    · exact ⟨⟨withContainerImage dpl objectStoreContainerName store.spec.image,
        by simp, hget⟩, rfl⟩
    · next d2 st2 ops2 hm =>
      rcases imageStep_state _ _ _ _ _ _ _ hm with hst | hst <;> subst hst <;>
        exact ⟨⟨withContainerImage dpl objectStoreContainerName store.spec.image,
          by simp, hget⟩, rfl⟩
  · intro ds2; rfl

/-- Deployment fixture scaled to three replicas. -/
def dplThree : Deployment := { dplOne with specReplicas := some 3 }

/-- Witness for the amended C10 at a concrete input: a desired replica
count of 3 is rewritten to 1 and reported unhealthy. -/
theorem checkDeployment_contract_witness :
    oscA.checkDeployment dsEmpty dplThree storeA =
      ⟨some (.check "deployment just scaled"), { dplThree with specReplicas := some 1 },
       storeA.status, [.updateDeployment { dplThree with specReplicas := some 1 }]⟩ :=
  (checkDeployment_contract oscA dsEmpty dplThree storeA).1 (by decide)

end LonghornOS
